import Mathlib

/-!
Verification of the geo-tracker ingestion / aggregation backend.

The definitions below are a shallow embedding of the JavaScript source:

* `buildUpdateData`, `applyToExisting`, `insertFromUpdate`, `aggregateOne`
  embed the `updateSessionData` helper of the tracking controller / worker
  (the MongoDB `findOneAndUpdate` call with `$set` / `$inc` / `$setOnInsert`
  and `upsert: true`, followed by the separate duration write for `unload`
  events).  MongoDB timestamps (`Date` values) are embedded as `Int`
  millisecond epochs.  On an upserted insert the new document is built from
  the query key, the `$setOnInsert` fields and the schema defaults, and then
  the `$inc` / `$set` operators are applied to it.
* `workerUnloadUpdate` embeds the unload branch of the queue consumer in
  `src/worker/worker.js`, which stores `endTime` and
  `duration = timestamp - session.startTime` (without clamping).
* `parseTimestamp`, `validateEventData`, `processEvents` embed the
  corresponding helpers of the tracking controller.  Host functionality
  (the JavaScript date-string parser, the project lookup, the geo fetch)
  is passed in as an explicit function argument.
-/

/-- A page payload as attached to pageview events
(`{url, title, referrer}` after sanitization). -/
structure PageData where
  url : String
  title : String
  referrer : String
deriving DecidableEq

/-- The `lastPage` subdocument written by the aggregator:
`{ url: eventData.page?.url, title: eventData.page?.title }`.
The optional chaining makes both fields possibly undefined. -/
structure LastPage where
  url : Option String
  title : Option String
deriving DecidableEq

/-- An event as it reaches `updateSessionData`: the canonical fields the
aggregator reads.  `etype` is the event `type` string (a reserved word in
Lean); `timestamp` is a millisecond epoch. -/
structure EventData where
  projectId : String
  sessionId : String
  etype : String
  timestamp : Int
  page : Option PageData
  user : String
deriving DecidableEq

/-- A session document, following the mongoose `sessionSchema`:
counters default to 0, `isBounce` defaults to true, `endTime` and
`duration` are absent until set. -/
structure Session where
  projectId : String
  sessionId : String
  startTime : Int
  endTime : Option Int
  duration : Option Int
  pageViews : Nat
  clicks : Nat
  scrolls : Nat
  forms : Nat
  routes : Nat
  isBounce : Bool
  lastActivity : Int
  lastEvent : String
  lastPage : Option LastPage
  firstPage : Option PageData
  user : String
deriving DecidableEq

/-- The MongoDB update document built by `updateSessionData`:
`$set` fields (ones only set on some branches are `Option`),
`$inc` fields, and `$setOnInsert` fields. -/
structure UpdateDoc where
  setLastActivity : Int
  setLastEvent : String
  setLastPage : Option LastPage := none
  setIsBounce : Option Bool := none
  setEndTime : Option Int := none
  incPageViews : Nat := 0
  incClicks : Nat := 0
  incScrolls : Nat := 0
  incForms : Nat := 0
  incRoutes : Nat := 0
  soiStartTime : Int
  soiUser : String
  soiIsBounce : Bool := true
  soiFirstPage : Option PageData := none
deriving DecidableEq

/-- Builds the update document exactly as `updateSessionData` does:
the base `$set` / `$setOnInsert` fields, then the switch on the event
type, then the `firstPage` `$setOnInsert` for pageviews carrying a page. -/
def buildUpdateData (e : EventData) : UpdateDoc :=
  let base : UpdateDoc :=
    { setLastActivity := e.timestamp
      setLastEvent := e.etype
      soiStartTime := e.timestamp
      soiUser := e.user
      soiIsBounce := true }
  let afterSwitch : UpdateDoc :=
    if e.etype = "pageview" then
      { base with
          incPageViews := 1
          setLastPage := some { url := e.page.map (·.url), title := e.page.map (·.title) }
          -- source comment: if this is not the first pageview, it is not a
          -- bounce -- but the assignment itself is unconditional
          setIsBounce := some false }
    else if e.etype = "click" then
      { base with incClicks := 1, setIsBounce := some false }
    else if e.etype = "scroll" then
      { base with incScrolls := 1 }
    else if e.etype = "form" then
      { base with incForms := 1, setIsBounce := some false }
    else if e.etype = "route" then
      { base with incRoutes := 1 }
    else if e.etype = "unload" then
      { base with setEndTime := some e.timestamp }
    else
      base
  if e.etype = "pageview" then
    match e.page with
    | some p => { afterSwitch with soiFirstPage := some p }
    | none => afterSwitch
  else
    afterSwitch

/-- Applies the `$inc` and `$set` operators of an update document to an
existing session document (the non-insert half of the upsert). -/
def applyToExisting (s : Session) (u : UpdateDoc) : Session :=
  { s with
      lastActivity := u.setLastActivity
      lastEvent := u.setLastEvent
      lastPage :=
        match u.setLastPage with
        | some lp => some lp
        | none => s.lastPage
      isBounce :=
        match u.setIsBounce with
        | some b => b
        | none => s.isBounce
      endTime :=
        match u.setEndTime with
        | some t => some t
        | none => s.endTime
      pageViews := s.pageViews + u.incPageViews
      clicks := s.clicks + u.incClicks
      scrolls := s.scrolls + u.incScrolls
      forms := s.forms + u.incForms
      routes := s.routes + u.incRoutes }

/-- The insert half of the upsert: the new document starts from the query
key, the `$setOnInsert` fields and the schema defaults, and the `$inc` and
`$set` operators are then applied to it. -/
def insertFromUpdate (projectId sessionId : String) (u : UpdateDoc) : Session :=
  let fresh : Session :=
    { projectId := projectId
      sessionId := sessionId
      startTime := u.soiStartTime
      endTime := none
      duration := none
      pageViews := 0
      clicks := 0
      scrolls := 0
      forms := 0
      routes := 0
      isBounce := u.soiIsBounce
      lastActivity := u.soiStartTime
      lastEvent := ""
      lastPage := none
      firstPage := u.soiFirstPage
      user := u.soiUser }
  applyToExisting fresh u

/-- One full aggregation step of `updateSessionData` for a single session
record: the atomic upsert, then (for unload events) the follow-up write
`duration = Math.max(0, eventData.timestamp - session.startTime)`. -/
def aggregateOne (old : Option Session) (e : EventData) : Session :=
  let u := buildUpdateData e
  let s :=
    match old with
    | some s => applyToExisting s u
    | none => insertFromUpdate e.projectId e.sessionId u
  if e.etype = "unload" then
    { s with duration := some (max 0 (e.timestamp - s.startTime)) }
  else
    s

/-- A pageview event used as a concrete input (spec Scenario B:
a single pageview for tenant T1, session S2, timestamp 500). -/
def pvScenarioB : EventData :=
  { projectId := "T1"
    sessionId := "S2"
    etype := "pageview"
    timestamp := 500
    page := none
    user := "u1" }

/-- C1.  The claim (and Scenario B of the spec, and the inline comment of
the source) says a session whose only aggregated event is one pageview
keeps `isBounce = true`.  Evaluating the code at that failing input: the
switch branch for pageview assigns `isBounce = false` unconditionally via
`$set`, so the freshly created session ends with `pageViews = 1` and
`isBounce = false`. -/
theorem c1_lone_pageview_is_not_bounce :
    (aggregateOne none pvScenarioB).pageViews = 1 ∧
      (aggregateOne none pvScenarioB).isBounce = false := by
  constructor <;> rfl

/-- C2.  Bounce monotonicity: the `$setOnInsert` initializer of `isBounce`
is `true` for every event (a session starts as a bounce at creation), and
no aggregation step applied to an existing session with `isBounce = false`
ever sets it back to `true` (the update documents only ever carry
`$set isBounce = false` or leave it untouched). -/
theorem c2_isBounce_monotone :
    (∀ e : EventData, (buildUpdateData e).soiIsBounce = true) ∧
      ∀ (s : Session) (e : EventData),
        s.isBounce = false → (aggregateOne (some s) e).isBounce = false := by
  constructor
  · intro e
    unfold buildUpdateData
    dsimp only
    repeat' split
    all_goals rfl
  · intro s e h
    have hb : ∀ u : UpdateDoc, u.setIsBounce = none ∨ u.setIsBounce = some false →
        (applyToExisting s u).isBounce = false := by
      intro u hu
      unfold applyToExisting
      rcases hu with hu | hu <;> simp [hu, h]
    have hu : (buildUpdateData e).setIsBounce = none ∨
        (buildUpdateData e).setIsBounce = some false := by
      unfold buildUpdateData
      dsimp only
      repeat' split
      all_goals simp
    unfold aggregateOne
    dsimp only
    split
    · exact hb _ hu
    · exact hb _ hu

/-- C2 witness: a concrete non-bounce session stays a non-bounce after
aggregating a scroll event. -/
def sessionW : Session :=
  { projectId := "T1"
    sessionId := "S1"
    startTime := 1000
    endTime := none
    duration := none
    pageViews := 2
    clicks := 0
    scrolls := 0
    forms := 0
    routes := 0
    isBounce := false
    lastActivity := 1000
    lastEvent := "pageview"
    lastPage := none
    firstPage := none
    user := "u1" }

/-- A concrete scroll event for the same session. -/
def scrollW : EventData :=
  { projectId := "T1"
    sessionId := "S1"
    etype := "scroll"
    timestamp := 2000
    page := none
    user := "u1" }

theorem c2_isBounce_monotone_witness :
    (aggregateOne (some sessionW) scrollW).isBounce = false :=
  c2_isBounce_monotone.2 sessionW scrollW rfl

/-! ## The queue-consumer unload path (src/worker/worker.js)

The queue consumer in `src/worker/worker.js` handles unload events with a
follow-up write that, unlike the tracking-controller helper above, does
not clamp the difference:
`$set: { endTime: new Date(event.timestamp), duration: new Date(event.timestamp) - session.startTime }`.
-/

/-- The unload branch of the queue consumer: stores the raw difference
between the unload timestamp and the session start, with no lower bound. -/
def workerUnloadUpdate (s : Session) (timestamp : Int) : Session :=
  { s with
      endTime := some timestamp
      duration := some (timestamp - s.startTime) }

/-- A session created by a pageview at t = 1000 (via the aggregator),
used as the concrete state for the clock-skew scenario. -/
def sessionAt1000 : Session :=
  aggregateOne none
    { projectId := "T1"
      sessionId := "S3"
      etype := "pageview"
      timestamp := 1000
      page := none
      user := "u1" }

/-- C3.  The claim says every stored duration equals
`max(0, endTime - startTime)` and is never negative.  The
tracking-controller helper does clamp (see
`updateSessionData_duration_clamped` below), but the queue consumer in
`src/worker/worker.js` does not: an unload at t = 500 for a session whose
`startTime` is 1000 stores `duration = -500`. -/
theorem c3_worker_stores_negative_duration :
    (workerUnloadUpdate sessionAt1000 500).duration = some (-500) ∧
      (workerUnloadUpdate sessionAt1000 500).startTime = 1000 := by
  constructor <;> rfl

/-- Supporting fact: the tracking-controller path does satisfy the claim;
its follow-up write stores `Math.max(0, timestamp - startTime)`. -/
theorem updateSessionData_duration_clamped (s : Session) (e : EventData)
    (h : e.etype = "unload") :
    (aggregateOne (some s) e).duration =
      some (max 0 (e.timestamp - (applyToExisting s (buildUpdateData e)).startTime)) := by
  unfold aggregateOne
  simp [h]

/-- Witness for the supporting fact at a concrete skewed input: unload at
t = 500 on a session started at t = 1000 stores duration 0 on the
controller path. -/
theorem updateSessionData_duration_clamped_witness :
    (aggregateOne (some sessionW)
      { projectId := "T1", sessionId := "S1", etype := "unload",
        timestamp := 500, page := none, user := "u1" }).duration = some 0 := by
  have h := updateSessionData_duration_clamped sessionW
    { projectId := "T1", sessionId := "S1", etype := "unload",
      timestamp := 500, page := none, user := "u1" } rfl
  rw [h]
  rfl

/-! ## Timestamp normalization (parseTimestamp, tracking controller)

JavaScript values reaching `parseTimestamp` are embedded as `JSVal`:
absent (undefined / null), an existing `Date`, a number, or a string.
The host date-string parser (`new Date(string)` / `Date.parse`) is passed
in as an explicit function returning the parsed epoch or `none`. -/

/-- A JavaScript value in a timestamp position. -/
inductive JSVal where
  | undef : JSVal
  | date (ms : Int) : JSVal
  | num (n : Int) : JSVal
  | str (s : String) : JSVal
deriving DecidableEq

/-- JavaScript truthiness of a `JSVal`: `undefined`, `null`, `0` and the
empty string are falsy. -/
def jsFalsy : JSVal → Bool
  | .undef => true
  | .date _ => false
  | .num n => n = 0
  | .str s => s = ""

/-- Embedding of the parseTimestamp helper:
`if (!timestamp) return new Date()`, Date instances returned as is,
numbers scaled with the `> 1e12` threshold, strings handed to the host
parser with ingestion-time now as fallback. -/
def parseTimestamp (parseDateStr : String → Option Int) (now : Int) (v : JSVal) : Int :=
  if jsFalsy v then now
  else
    match v with
    | .undef => now
    | .date d => d
    | .num n => if n > 1000000000000 then n else n * 1000
    | .str s =>
      match parseDateStr s with
      | some t => t
      | none => now

/-- A host date-string parser that parses nothing, for concrete inputs. -/
def parseNone : String → Option Int := fun _ => none

/-- C4 counterexample.  The claim says a numeric epoch at or below 1e12 is
scaled from seconds to milliseconds, and only unparseable or absent
timestamps fall back to now.  The numeric epoch 0 is at or below the
threshold, so the claim demands the instant 0 * 1000 = 0; but 0 is falsy
in JavaScript, so the code returns ingestion-time now (here 999). -/
theorem c4_zero_epoch_counterexample :
    parseTimestamp parseNone 999 (JSVal.num 0) = 999 ∧
      parseTimestamp parseNone 999 (JSVal.num 0) ≠ (0 : Int) * 1000 := by
  constructor
  · rfl
  · decide

/-- C4 (amended).  Timestamp normalization is total and behaves as the
claim states except on falsy inputs: a nonzero numeric epoch at or below
1e12 is scaled from seconds to milliseconds, above the threshold it is
taken as milliseconds; a Date passes through; a nonempty parseable string
is parsed; an unparseable string, an absent value, the number 0, or the
empty string yield ingestion-time now. -/
theorem c4_parseTimestamp_spec (p : String → Option Int) (now : Int) :
    (∀ n : Int, n ≠ 0 → n ≤ 1000000000000 → parseTimestamp p now (.num n) = n * 1000) ∧
      (∀ n : Int, n > 1000000000000 → parseTimestamp p now (.num n) = n) ∧
      (∀ d : Int, parseTimestamp p now (.date d) = d) ∧
      (∀ s : String, ∀ t : Int, s ≠ "" → p s = some t → parseTimestamp p now (.str s) = t) ∧
      (∀ s : String, p s = none → parseTimestamp p now (.str s) = now) ∧
      parseTimestamp p now .undef = now ∧
      parseTimestamp p now (.num 0) = now := by
  refine ⟨?_, ?_, ?_, ?_, ?_, rfl, rfl⟩
  · intro n hn hle
    simp only [parseTimestamp, jsFalsy]
    rw [if_neg, if_neg]
    · omega
    · simp [hn]
  · intro n hgt
    have hn : n ≠ 0 := by omega
    simp only [parseTimestamp, jsFalsy]
    rw [if_neg, if_pos hgt]
    simp [hn]
  · intro d
    rfl
  · intro s t hs hp
    simp only [parseTimestamp, jsFalsy]
    rw [if_neg]
    · simp [hp]
    · simp [hs]
  · intro s hp
    by_cases hs : s = ""
    · subst hs
      rfl
    · simp only [parseTimestamp, jsFalsy]
      rw [if_neg]
      · simp [hp]
      · simp [hs]

/-- A host parser used for the C4 witness: parses just "2020-01-01". -/
def parseW : String → Option Int := fun s =>
  if s = "2020-01-01" then some 1577836800000 else none

/-- C4 witness: the amended statement evaluated at concrete inputs. -/
theorem c4_parseTimestamp_spec_witness :
    parseTimestamp parseW 777 (.num 5) = 5000 ∧
      parseTimestamp parseW 777 (.num 2000000000000) = 2000000000000 ∧
      parseTimestamp parseW 777 (.str "2020-01-01") = 1577836800000 ∧
      parseTimestamp parseW 777 (.str "garbage") = 777 :=
  ⟨(c4_parseTimestamp_spec parseW 777).1 5 (by decide) (by decide),
    (c4_parseTimestamp_spec parseW 777).2.1 2000000000000 (by decide),
    (c4_parseTimestamp_spec parseW 777).2.2.2.1 "2020-01-01" 1577836800000
      (by decide) (by decide),
    (c4_parseTimestamp_spec parseW 777).2.2.2.2.1 "garbage" (by decide)⟩

/-! ## Queue priority hint (addEvent, worker module) -/

/-- The priority hint passed when enqueuing an enriched event:
`priority: eventData.type === "pageview" ? 10 : 5`. -/
def priorityFor (etype : String) : Nat :=
  if etype = "pageview" then 10 else 5

/-- C7 counterexample.  The claim says the hint ranks both pageview and
unload strictly above the secondary interaction events; in the code only
pageview is special-cased, so unload gets the same hint (5) as click. -/
theorem c7_unload_not_above_click :
    priorityFor "unload" = 5 ∧
      ¬ priorityFor "unload" > priorityFor "click" := by
  constructor
  · rfl
  · decide

/-- C7 (amended).  The hint ranks pageview (10) strictly above every other
event type; every non-pageview type, unload included, gets the same
hint as the secondary interaction events (5). -/
theorem c7_priority_spec (t : String) (h : t ≠ "pageview") :
    priorityFor "pageview" > priorityFor t ∧ priorityFor t = priorityFor "click" := by
  unfold priorityFor
  simp [h]

/-- C7 witness: the amended statement at the concrete type scroll. -/
theorem c7_priority_spec_witness :
    priorityFor "pageview" > priorityFor "scroll" ∧
      priorityFor "scroll" = priorityFor "click" :=
  c7_priority_spec "scroll" (by decide)

/-! ## Validation (validateEventData, tracking controller)

A raw record from a submitted batch is either not an object, or an object
whose required fields may be absent.  The required-field check in the
source is JavaScript truthiness (`!event.projectId || ...`), so an empty
string counts as missing.  The spec names the tenant key `tenantId`; in
the source the same field is called `projectId`. -/

/-- A raw record of a submitted batch. -/
inductive RawEvent where
  | notObject : RawEvent
  | obj (projectId sessionId etype : Option String) (timestamp : JSVal) : RawEvent
deriving DecidableEq

/-- Truthiness of an optional string field: absent or empty is falsy. -/
def strFalsy (o : Option String) : Bool :=
  o = none || o = some ""

/-- The `validTypes` list of the source, which includes the extra
type `event` alongside the seven types of the model schema. -/
def validTypes : List String :=
  ["pageview", "click", "scroll", "form", "route", "unload", "event", "custom"]

/-- The canonical event produced by validation (the fields every event
type carries; type-specific payloads are not needed for the properties
below). -/
structure SanitizedEvent where
  projectId : String
  sessionId : String
  etype : String
  timestamp : Int
deriving DecidableEq

/-- Embedding of validateEventData: reject non-objects; reject falsy
`projectId` / `sessionId` / `type`; reject a type outside `validTypes`;
otherwise sanitize (trim the ids, lowercase and trim the type, normalize
the timestamp with `parseTimestamp`). -/
def validateEventData (p : String → Option Int) (now : Int) :
    RawEvent → Option SanitizedEvent
  | .notObject => none
  | .obj pid sid ty ts =>
    if strFalsy pid || strFalsy sid || strFalsy ty then none
    else if validTypes.contains (ty.getD "") then
      some { projectId := (pid.getD "").trim
             sessionId := (sid.getD "").trim
             etype := ((ty.getD "").toLower).trim
             timestamp := parseTimestamp p now ts }
    else none

/-- Modelled from the spec: the seven-member type enum named by the claim,
`{pageview, click, scroll, form, route, unload, custom}`. -/
def specEventTypes : List String :=
  ["pageview", "click", "scroll", "form", "route", "unload", "custom"]

/-- C5 counterexample.  The claim says the validator rejects exactly the
records that are not objects, miss a required field, or whose type is
outside the seven-member enum.  A record of type `event` has a type
outside that enum, so the claim demands rejection; the source accepts it,
because its `validTypes` list has the extra member `event`. -/
theorem c5_event_type_accepted :
    (validateEventData parseNone 0
        (.obj (some "p1") (some "s1") (some "event") .undef)).isSome = true ∧
      specEventTypes.contains "event" = false := by
  constructor <;> rfl

/-- The rejection predicate of the amended claim: not an object, a missing
(absent or empty) `projectId` / `sessionId` / `type`, or a type outside
the eight-member source enum (`event` included). -/
def rejectedRecord : RawEvent → Bool
  | .notObject => true
  | .obj pid sid ty _ =>
    strFalsy pid || strFalsy sid || strFalsy ty || ! validTypes.contains (ty.getD "")

/-- C5 (amended).  The validator rejects a raw record exactly when
`rejectedRecord` holds: it is not an object, or `projectId` / `sessionId`
/ `type` is absent or empty, or the type is outside the eight-member
enum {pageview, click, scroll, form, route, unload, event, custom};
every other record yields a canonical event. -/
theorem c5_reject_iff (p : String → Option Int) (now : Int) (r : RawEvent) :
    (validateEventData p now r).isNone = rejectedRecord r := by
  cases r with
  | notObject => rfl
  | obj pid sid ty ts =>
    unfold validateEventData rejectedRecord
    by_cases hf : (strFalsy pid || strFalsy sid || strFalsy ty) = true
    · simp [hf]
    · simp only [Bool.not_eq_true] at hf
      by_cases hm : (ty.getD "") ∈ validTypes
      · simp [hf, hm]
      · simp [hf, hm]

/-! ## Geolocation lookup (getGeoInfo, utils) -/

/-- A geolocation result record. -/
structure GeoInfo where
  country : String
  city : String
  region : String
  latitude : Option Int
  longitude : Option Int
deriving DecidableEq

/-- The fixed result for localhost and private addresses. -/
def localGeo : GeoInfo :=
  { country := "Local", city := "Local", region := "Local",
    latitude := none, longitude := none }

/-- The substitute returned from the catch block. -/
def unknownGeo : GeoInfo :=
  { country := "Unknown", city := "Unknown", region := "Unknown",
    latitude := none, longitude := none }

/-- The outcome of the external HTTP lookup: a 2xx response carrying a
JSON body (fields possibly absent), a non-2xx response (which the source
turns into a thrown error), or a thrown network error / timeout. -/
inductive FetchResult where
  | ok (country city region : Option String) (latitude longitude : Option Int) : FetchResult
  | httpBad : FetchResult
  | thrown : FetchResult
deriving DecidableEq

/-- JavaScript `x || "Unknown"` on an optional string field of the JSON
body: absent or empty falls back to Unknown. -/
def orUnknown (o : Option String) : String :=
  match o with
  | some s => if s = "" then "Unknown" else s
  | none => "Unknown"

/-- JavaScript `x || null` on an optional numeric field: absent or zero
becomes null. -/
def orNull (o : Option Int) : Option Int :=
  match o with
  | some v => if v = 0 then none else some v
  | none => none

/-- Embedding of the JavaScript string method `s.startsWith(p)` as a
character-list prefix test (the Lean builtin is not kernel-reducible). -/
def jsStartsWith (s p : String) : Bool :=
  p.data.isPrefixOf s.data

/-- The short-circuit test of the source: exactly the literal checks
`ip === "127.0.0.1" || ip === "::1" || ip.startsWith("192.168.") ||
ip.startsWith("10.") || ip.startsWith("172.")`. -/
def isLocalIP (ip : String) : Bool :=
  ip = "127.0.0.1" || ip = "::1" ||
    jsStartsWith ip "192.168." || jsStartsWith ip "10." || jsStartsWith ip "172."

/-- Embedding of getGeoInfo, with the external fetch passed in as a
function from the IP to its outcome.  Total: every outcome yields a
record, never an error. -/
def getGeoInfo (fetchIP : String → FetchResult) (ip : String) : GeoInfo :=
  if isLocalIP ip then localGeo
  else
    match fetchIP ip with
    | .ok c ci r la lo =>
      { country := orUnknown c, city := orUnknown ci, region := orUnknown r,
        latitude := orNull la, longitude := orNull lo }
    | .httpBad => unknownGeo
    | .thrown => unknownGeo

/-- A fetch returning a fixed US result, for concrete inputs. -/
def fetchUS : String → FetchResult :=
  fun _ => .ok (some "US") (some "NYC") (some "NY") none none

/-- C8 counterexample.  The claim says the fixed Local result is returned
exactly when the IP is loopback or in a private range.  The address
127.0.0.2 lies in the loopback range 127.0.0.0/8, so the claim demands
the Local result; the source only compares against the literal
"127.0.0.1", so the lookup proceeds and returns the fetched geolocation
instead. -/
theorem c8_loopback_not_local :
    jsStartsWith "127.0.0.2" "127." = true ∧
      getGeoInfo fetchUS "127.0.0.2" ≠ localGeo := by
  constructor
  · decide
  · decide

/-- C8 (amended).  The lookup short-circuits to the fixed Local result
exactly for the literal checks of the source (127.0.0.1, ::1, and the
prefixes 192.168., 10., 172. — a superset of the private 172.16/12 block
and a strict subset of loopback); on any lookup failure (non-2xx response
or thrown error) it returns the Unknown substitute; being a total
function, it never propagates an error to the caller. -/
theorem c8_geo_spec (ip : String) :
    ((∀ f : String → FetchResult, getGeoInfo f ip = localGeo) ↔ isLocalIP ip = true) ∧
      ∀ f : String → FetchResult, isLocalIP ip = false →
        (f ip = .httpBad ∨ f ip = .thrown) → getGeoInfo f ip = unknownGeo := by
  constructor
  · constructor
    · intro h
      by_contra hip
      simp only [Bool.not_eq_true] at hip
      have := h (fun _ => .httpBad)
      unfold getGeoInfo at this
      rw [hip] at this
      simp only [Bool.false_eq_true, if_false] at this
      exact absurd (congrArg GeoInfo.country this) (by decide)
    · intro hip f
      unfold getGeoInfo
      simp [hip]
  · intro f hip hf
    unfold getGeoInfo
    rcases hf with hf | hf <;> simp [hip, hf]

/-- C8 witness: a private address short-circuits to Local for every
fetch outcome, and a failing lookup for a public address yields Unknown. -/
theorem c8_geo_spec_witness :
    getGeoInfo fetchUS "10.0.0.1" = localGeo ∧
      getGeoInfo (fun _ => FetchResult.thrown) "8.8.8.8" = unknownGeo :=
  ⟨(c8_geo_spec "10.0.0.1").1.mpr (by decide) fetchUS,
    (c8_geo_spec "8.8.8.8").2 (fun _ => FetchResult.thrown) (by decide) (Or.inr rfl)⟩

/-! ## The ingestion endpoint (processEvents, tracking controller)

The handler sends a 202 acknowledgment first, then validates the body
(array, nonempty), truncates to the first 50 records, and loops:
an invalid record or a record of an unknown / inactive project increments
`skipped`, every other record is enriched, queued (or saved directly) and
increments `processed`.  The project-active lookup is passed in as a
function; the queue / direct-save successes of the happy path carry no
observable counter effects beyond `processed`. -/

/-- What the handler observably produces: the HTTP status sent to the
client, the two counters of the final log line, and the canonical events
handed on for queuing / persistence, in order. -/
structure IngestResult where
  status : Nat
  processed : Nat
  skipped : Nat
  accepted : List SanitizedEvent
deriving DecidableEq

/-- One iteration of the processing loop, on the state
(processed, skipped, accepted). -/
def processOneRecord (active : String → Bool) (p : String → Option Int) (now : Int)
    (st : Nat × Nat × List SanitizedEvent) (r : RawEvent) :
    Nat × Nat × List SanitizedEvent :=
  match validateEventData p now r with
  | none => (st.1, st.2.1 + 1, st.2.2)
  | some ev =>
    if active ev.projectId then (st.1 + 1, st.2.1, st.2.2 ++ [ev])
    else (st.1, st.2.1 + 1, st.2.2)

/-- Embedding of processEvents.  The body is `none` when `req.body` is
not an array.  `res.status(202)` is sent unconditionally before any
validation, so every branch carries status 202; a non-array or empty
body is discarded with nothing processed; otherwise the loop runs over
`events.slice(0, 50)`. -/
def processEvents (active : String → Bool) (p : String → Option Int) (now : Int)
    (body : Option (List RawEvent)) : IngestResult :=
  match body with
  | none => { status := 202, processed := 0, skipped := 0, accepted := [] }
  | some events =>
    if events.length = 0 then
      { status := 202, processed := 0, skipped := 0, accepted := [] }
    else
      let limited := events.take 50
      let st := limited.foldl (processOneRecord active p now) (0, 0, [])
      { status := 202, processed := st.1, skipped := st.2.1, accepted := st.2.2 }

/-- Each loop iteration increments exactly one of the two counters. -/
theorem processLoop_counts (active : String → Bool) (p : String → Option Int)
    (now : Int) (l : List RawEvent) (init : Nat × Nat × List SanitizedEvent) :
    (l.foldl (processOneRecord active p now) init).1 +
        (l.foldl (processOneRecord active p now) init).2.1 =
      init.1 + init.2.1 + l.length := by
  induction l generalizing init with
  | nil => simp
  | cons r rs ih =>
    simp only [List.foldl_cons, List.length_cons]
    rw [ih]
    unfold processOneRecord
    cases validateEventData p now r with
    | none => simp; omega
    | some ev =>
      by_cases ha : active ev.projectId = true <;> simp [ha] <;> omega

/-- A well-formed record (a pageview with all required fields), used for
concrete batches. -/
def goodRec : RawEvent :=
  .obj (some "p1") (some "s1") (some "pageview") (JSVal.num 1)

/-- C6 counterexample.  The claim says the records beyond the cap of 50
are dropped and counted, reflected in the skipped count.  Submitting 51
valid records of an active project: the handler processes the first 50
and the 51st is dropped without appearing in either counter
(processed = 50, skipped = 0; the claim demands the drop be reflected,
i.e. skipped positive or the counters to cover all 51). -/
theorem c6_excess_not_counted :
    (processEvents (fun _ => true) parseNone 0 (some (List.replicate 51 goodRec))).processed = 50 ∧
      (processEvents (fun _ => true) parseNone 0 (some (List.replicate 51 goodRec))).skipped = 0 := by
  constructor <;> rfl

/-- C6 (amended).  A batch longer than 50 is truncated to its first 50
records: the outcome equals that of submitting just the first 50, the
two counters cover exactly those 50 records (the excess is silently
dropped and appears in no count), and the request is acknowledged with
202, not rejected. -/
theorem c6_batch_truncated (active : String → Bool) (p : String → Option Int)
    (now : Int) (recs : List RawEvent) (h : 50 < recs.length) :
    processEvents active p now (some recs) =
        processEvents active p now (some (recs.take 50)) ∧
      (processEvents active p now (some recs)).processed +
          (processEvents active p now (some recs)).skipped = 50 ∧
      (processEvents active p now (some recs)).status = 202 := by
  have hlen : recs.length ≠ 0 := by omega
  have htake : (recs.take 50).length = 50 := by
    rw [List.length_take]
    omega
  have htt : (recs.take 50).take 50 = recs.take 50 := by
    rw [List.take_take]
    norm_num
  refine ⟨?_, ?_, ?_⟩
  · simp only [processEvents]
    rw [if_neg hlen, if_neg (by omega), htt]
  · simp only [processEvents]
    rw [if_neg hlen]
    have hc := processLoop_counts active p now (recs.take 50) (0, 0, [])
    simp only [htake] at hc
    norm_num at hc
    dsimp only
    omega
  · simp only [processEvents]
    rw [if_neg hlen]

/-- C6 witness: the amended statement at the concrete 51-record batch. -/
theorem c6_batch_truncated_witness :
    (processEvents (fun _ => true) parseNone 0
        (some (List.replicate 51 goodRec))).status = 202 ∧
      (processEvents (fun _ => true) parseNone 0
          (some (List.replicate 51 goodRec))).processed +
        (processEvents (fun _ => true) parseNone 0
            (some (List.replicate 51 goodRec))).skipped = 50 :=
  ⟨(c6_batch_truncated (fun _ => true) parseNone 0 (List.replicate 51 goodRec)
      (by simp)).2.2,
    (c6_batch_truncated (fun _ => true) parseNone 0 (List.replicate 51 goodRec)
      (by simp)).2.1⟩

/-- C10.  The 202 acknowledgment does not depend on the body at all (it
is sent before any validation or processing), and a body that is not an
array, or is an empty array, is silently discarded after the
acknowledgment: nothing is processed, skipped, or dispatched. -/
theorem c10_ack_then_discard (active : String → Bool) (p : String → Option Int)
    (now : Int) (body : Option (List RawEvent)) :
    (processEvents active p now body).status = 202 ∧
      ((body = none ∨ body = some []) →
        processEvents active p now body =
          { status := 202, processed := 0, skipped := 0, accepted := [] }) := by
  constructor
  · unfold processEvents
    cases body with
    | none => rfl
    | some events =>
      by_cases he : events.length = 0 <;> simp [he]
  · rintro (rfl | rfl) <;> rfl

/-- C10 witness: a non-array body receives the 202 acknowledgment and is
discarded. -/
theorem c10_ack_then_discard_witness :
    processEvents (fun _ => true) parseNone 0 none =
      { status := 202, processed := 0, skipped := 0, accepted := [] } :=
  (c10_ack_then_discard (fun _ => true) parseNone 0 none).2 (Or.inl rfl)

/-! ## The session store and its keying (sessionSchema, updateSessionData)

`updateSessionData` addresses a session by the pair
`{projectId, sessionId}` in its `findOneAndUpdate` query, but the
mongoose `sessionSchema` declares `sessionId` with `unique: true`: a
collection-wide unique index on `sessionId` alone.  The store is
embedded as a list of session documents; an upsert that matches no
document by the pair attempts an insert, which the unique index rejects
with a duplicate-key error whenever any document of any project already
carries that `sessionId`. -/

/-- The pair query of the source:
`Session.findOneAndUpdate({ projectId, sessionId }, ...)`. -/
def findSession (store : List Session) (projectId sessionId : String) : Option Session :=
  store.find? (fun s => s.projectId = projectId && s.sessionId = sessionId)

/-- Replaces the (unique) document matching the pair key. -/
def replaceSession (store : List Session) (projectId sessionId : String)
    (snew : Session) : List Session :=
  store.map (fun t => if t.projectId = projectId && t.sessionId = sessionId then snew else t)

/-- The store-level upsert of `updateSessionData` under the schema
constraints: update in place when the pair matches; otherwise insert,
unless the collection-wide unique index on `sessionId` alone rejects the
new document with a duplicate-key error. -/
def updateSessionData (store : List Session) (e : EventData) :
    Except String (List Session) :=
  match findSession store e.projectId e.sessionId with
  | some s => .ok (replaceSession store e.projectId e.sessionId (aggregateOne (some s) e))
  | none =>
    if store.any (fun t => t.sessionId = e.sessionId) then
      .error "E11000 duplicate key: sessionId"
    else
      .ok (aggregateOne none e :: store)

/-- A pageview for tenant T1, session S. -/
def evT1 : EventData :=
  { projectId := "T1", sessionId := "S", etype := "pageview",
    timestamp := 100, page := none, user := "u1" }

/-- A pageview for the distinct tenant T2 with the same session id S. -/
def evT2 : EventData :=
  { projectId := "T2", sessionId := "S", etype := "pageview",
    timestamp := 200, page := none, user := "u2" }

/-- The store after aggregating the T1 event into an empty store. -/
def storeT1 : List Session := [aggregateOne none evT1]

/-- C9.  The claim (and the spec) says sessions are uniquely keyed by the
pair (tenantId, sessionId), so two distinct tenants can each hold a
session with the same sessionId value.  Evaluating the code at that
failing input: after tenant T1 creates session S, the upsert for tenant
T2 with the same sessionId matches nothing by the pair and its insert is
rejected by the unique index that `sessionSchema` declares on `sessionId`
alone — T2 cannot hold its own record. -/
theorem c9_cross_tenant_duplicate_key :
    updateSessionData [] evT1 = .ok storeT1 ∧
      updateSessionData storeT1 evT2 = .error "E11000 duplicate key: sessionId" := by
  constructor <;> rfl

/-- Supporting fact for the part of C9 the code does honor: a successful
aggregation addressed by a pair key leaves every document with a
different pair key unchanged and in the store. -/
theorem updateSessionData_touches_only_key (store : List Session) (e : EventData)
    (stnew : List Session) (t : Session)
    (hok : updateSessionData store e = .ok stnew)
    (ht : t ∈ store)
    (hkey : ¬(t.projectId = e.projectId ∧ t.sessionId = e.sessionId)) :
    t ∈ stnew := by
  unfold updateSessionData at hok
  cases hfind : findSession store e.projectId e.sessionId with
  | some s =>
    rw [hfind] at hok
    injection hok with hok
    subst hok
    unfold replaceSession
    refine List.mem_map.mpr ⟨t, ht, ?_⟩
    dsimp only
    simp only [Bool.and_eq_true, decide_eq_true_eq]
    rw [if_neg hkey]
  | none =>
    rw [hfind] at hok
    by_cases hdup : store.any (fun u => u.sessionId = e.sessionId) = true
    · rw [if_pos hdup] at hok
      exact absurd hok (by simp)
    · rw [if_neg hdup] at hok
      injection hok with hok
      subst hok
      exact List.mem_cons_of_mem _ ht

/-- Witness for the supporting fact: aggregating a T2 event with a fresh
session id into the T1 store leaves the T1 session untouched. -/
theorem updateSessionData_touches_only_key_witness :
    aggregateOne none evT1 ∈ (aggregateOne none
        { projectId := "T2", sessionId := "S9", etype := "pageview",
          timestamp := 300, page := none, user := "u2" } :: storeT1) :=
  updateSessionData_touches_only_key storeT1
    { projectId := "T2", sessionId := "S9", etype := "pageview",
      timestamp := 300, page := none, user := "u2" }
    (aggregateOne none
        { projectId := "T2", sessionId := "S9", etype := "pageview",
          timestamp := 300, page := none, user := "u2" } :: storeT1)
    (aggregateOne none evT1) rfl (by simp [storeT1]) (by decide)
